import Mathlib

/-!
# Verification of the szem-core object-lease lifecycle engine

Shallow embedding of the Go repository `lvbu1984/szem-core`.

Modelling conventions:
* Timestamps are nanoseconds since the Unix epoch, as `Nat`; `0` models Go's
  zero `time.Time` (`IsZero`).  Go's `time.Duration` arithmetic
  (`30 * 24 * time.Hour`) is exact nanosecond arithmetic, mirrored here.
* `nil` pointers (`*time.Time`) become `Option Timestamp`.
* The SQLite tables become lists of row records; `INSERT` appends, a
  `PRIMARY KEY` collision is a constraint error that leaves the table
  unchanged, `INSERT OR IGNORE` swallows that error.  Go methods that
  discard the `Exec` result (`_, _ = s.db.Exec(...)`) are modelled by
  projecting away the error component, exactly as the source does.
* Byte payloads are `List Nat`.
-/

namespace Szem

abbrev Timestamp := Nat

/-- `lifecycle.LeaseStatus` (src/internal/lifecycle/types.go). -/
inductive LeaseStatus where
  | active
  | expired
  | deleted
deriving DecidableEq, Repr

/-- `lifecycle.StorageRef` (src/internal/lifecycle/types.go). -/
structure StorageRef where
  dataSetID : String
  pieceCID : String
deriving DecidableEq, Repr

/-- `lifecycle.ObjectLease` (src/internal/lifecycle/types.go). -/
structure ObjectLease where
  leaseID : String
  objectID : String
  bucket : String
  key : String
  wallet : String
  createdAt : Timestamp
  expireAt : Timestamp
  tombstonedAt : Option Timestamp
  deletedAt : Option Timestamp
  storageRef : StorageRef
deriving DecidableEq, Repr

/-- `lifecycle.CalculateLeaseStatus` (src/internal/lifecycle/types.go).
The Go function reads `time.Now().UTC()` itself; here the current instant
is the explicit parameter `now`.  `now.Equal(e) || now.After(e)` is
`e ≤ now`; `!l.ExpireAt.IsZero()` is `l.expireAt ≠ 0`. -/
def CalculateLeaseStatus (now : Timestamp) (l : ObjectLease) : LeaseStatus :=
  if l.deletedAt.isSome then LeaseStatus.deleted
  else if l.expireAt ≠ 0 ∧ l.expireAt ≤ now then LeaseStatus.expired
  else LeaseStatus.active

/-- A row of the `leases` table (schema in src/internal/lifecycle/sqlite_store.go). -/
structure LeaseRow where
  leaseID : String
  objectID : String
  bucket : String
  objectKey : String
  wallet : String
  createdAt : Timestamp
  expireAt : Timestamp
  deletedAt : Option Timestamp
  datasetID : String
  pieceCID : String
deriving DecidableEq, Repr

/-- A row of the `objects` table. -/
structure ObjectRow where
  objectID : String
  wallet : String
  datasetID : String
  sizeBytes : Int
  createdAt : Timestamp
deriving DecidableEq, Repr

/-- A row of the `users` table. -/
structure UserRow where
  wallet : String
  createdAt : Timestamp
deriving DecidableEq, Repr

/-- A row of the `datasets` table. -/
structure DataSetRow where
  datasetID : String
  wallet : String
  createdAt : Timestamp
deriving DecidableEq, Repr

/-- SQL-level failure of an `Exec`. -/
inductive SqlError where
  | constraintViolation
deriving DecidableEq, Repr

/-- The SQL layer of `InsertObject`: `object_id` is the primary key of
`objects`, so inserting a duplicate identifier fails with a constraint
violation and leaves the table unchanged. -/
def dbInsertObject (objs : List ObjectRow) (row : ObjectRow) :
    List ObjectRow × Except SqlError Unit :=
  if objs.any (fun o => o.objectID = row.objectID) then
    (objs, Except.error SqlError.constraintViolation)
  else
    (objs ++ [row], Except.ok ())

/-- `SQLiteStore.InsertObject` (src/internal/lifecycle/sqlite_store.go).
The Go method discards the `Exec` result (`_, _ = s.db.Exec(...)`) and
returns nothing, so the caller-visible outcome is only the new table state:
the error component of `dbInsertObject` is projected away. -/
def InsertObject (objs : List ObjectRow) (objectID wallet datasetID : String)
    (size : Int) (now : Timestamp) : List ObjectRow :=
  (dbInsertObject objs
    { objectID := objectID, wallet := wallet, datasetID := datasetID,
      sizeBytes := size, createdAt := now }).1

/-- `SQLiteStore.InsertUser` (src/internal/lifecycle/sqlite_store.go):
`INSERT OR IGNORE` keyed on `wallet`. -/
def InsertUser (users : List UserRow) (wallet : String) (now : Timestamp) :
    List UserRow :=
  if users.any (fun u => u.wallet = wallet) then users
  else users ++ [{ wallet := wallet, createdAt := now }]

/-- `SQLiteStore.InsertDataSet` (src/internal/lifecycle/sqlite_store.go):
`INSERT OR IGNORE` keyed on `dataset_id`. -/
def InsertDataSet (datasets : List DataSetRow) (datasetID wallet : String)
    (now : Timestamp) : List DataSetRow :=
  if datasets.any (fun d => d.datasetID = datasetID) then datasets
  else datasets ++ [{ datasetID := datasetID, wallet := wallet, createdAt := now }]

/-- The row written by `SQLiteStore.InsertLease`: the bind list passes the
lease's fields but hard-codes `nil` for the `deleted_at` column, so the
persisted row always has `deletedAt = none` whatever `l.deletedAt` or
`l.tombstonedAt` held. -/
def insertedLeaseRow (l : ObjectLease) : LeaseRow :=
  { leaseID := l.leaseID, objectID := l.objectID, bucket := l.bucket,
    objectKey := l.key, wallet := l.wallet, createdAt := l.createdAt,
    expireAt := l.expireAt, deletedAt := none,
    datasetID := l.storageRef.dataSetID, pieceCID := l.storageRef.pieceCID }

/-- The SQL layer of `InsertLease`: `lease_id` is the primary key. -/
def dbInsertLease (rows : List LeaseRow) (l : ObjectLease) :
    List LeaseRow × Except SqlError Unit :=
  if rows.any (fun r => r.leaseID = l.leaseID) then
    (rows, Except.error SqlError.constraintViolation)
  else
    (rows ++ [insertedLeaseRow l], Except.ok ())

/-- `SQLiteStore.InsertLease` (src/internal/lifecycle/sqlite_store.go);
like `InsertObject` it discards the `Exec` result. -/
def InsertLease (rows : List LeaseRow) (l : ObjectLease) : List LeaseRow :=
  (dbInsertLease rows l).1

/-- Helper for `GetActiveLeaseByObjectID`: a row of maximal `created_at`,
modelling `ORDER BY created_at DESC LIMIT 1` (SQLite leaves the order of
ties unspecified; this picker is one deterministic refinement of it). -/
def maxByCreated : List LeaseRow → Option LeaseRow
  | [] => none
  | r :: rs =>
    match maxByCreated rs with
    | none => some r
    | some b => if b.createdAt ≤ r.createdAt then some r else some b

/-- `SQLiteStore.GetActiveLeaseByObjectID` (src/internal/lifecycle/sqlite_store.go):
`SELECT ... FROM leases WHERE object_id = ? ORDER BY created_at DESC LIMIT 1`.
`none` models the `sql.ErrNoRows` error returned when no row matches. -/
def GetActiveLeaseByObjectID (rows : List LeaseRow) (objectID : String) :
    Option LeaseRow :=
  maxByCreated (rows.filter (fun r => r.objectID = objectID))

/-- The `ObjectLease` built by the `Scan` in `GetActiveLeaseByObjectID`: the
query does not select `bucket`/`object_key`, so those fields stay at their
zero value, and `TombstonedAt` is never read from the table. -/
def leaseFromRow (r : LeaseRow) : ObjectLease :=
  { leaseID := r.leaseID, objectID := r.objectID, bucket := "", key := "",
    wallet := r.wallet, createdAt := r.createdAt, expireAt := r.expireAt,
    tombstonedAt := none, deletedAt := r.deletedAt,
    storageRef := { dataSetID := r.datasetID, pieceCID := r.pieceCID } }

/-- The mock storage adapter's state (src/internal/storage/mock_adapter.go):
the `map[PieceCID][]byte`, as an association list. -/
abbrev AdapterState := List (String × List Nat)

/-- `MockAdapter.Download`: map lookup, `not found` error modelled as `none`. -/
def mockDownload (a : AdapterState) (pieceCID : String) : Option (List Nat) :=
  (a.find? (fun p => p.1 = pieceCID)).map Prod.snd

/-- `MockAdapter.Upload`: stores the bytes under a fresh piece identifier
`"mock-piece-" ++ (number of stored pieces + 1)` and reports the byte size. -/
def mockUpload (a : AdapterState) (data : List Nat) :
    AdapterState × String × Nat :=
  let pieceCID := "mock-piece-" ++ toString (a.length + 1)
  (a ++ [(pieceCID, data)], pieceCID, data.length)

/-- Outcome of an HTTP handler as the client sees it: a byte body, or an
error produced by `writeError(status, code, message)`. -/
inductive HttpResult where
  | bytes (data : List Nat)
  | httpError (status : Nat) (code : String) (message : String)
deriving DecidableEq, Repr

/-- `Server.handleGetObject` (src/internal/api/server.go): look up the most
recent lease for the object, re-derive its status, and return the bytes only
when the status is `Active`; a missing lease and a non-active lease produce
the same `writeError(404, "not_found", "object not found")`. -/
def handleGetObject (leases : List LeaseRow) (adapter : AdapterState)
    (now : Timestamp) (objectID : String) : HttpResult :=
  match GetActiveLeaseByObjectID leases objectID with
  | none => HttpResult.httpError 404 "not_found" "object not found"
  | some row =>
    if CalculateLeaseStatus now (leaseFromRow row) ≠ LeaseStatus.active then
      HttpResult.httpError 404 "not_found" "object not found"
    else
      match mockDownload adapter row.pieceCID with
      | none => HttpResult.httpError 500 "download_error" "download failed"
      | some data => HttpResult.bytes data

/-- Nanoseconds per day: `24 * time.Hour` in Go's `time.Duration` units. -/
def nsPerDay : Nat := 24 * 60 * 60 * 1000000000

/-- Lease-derived part of `ExtendedStats` (src/internal/lifecycle/sqlite_store.go).
The user/storage byte counters live on other tables and no claim concerns
them, so only the lease-derived fields are modelled. -/
structure ExtendedStats where
  expiringIn7Days : Nat
  activeObjects : Nat
  expiredObjects : Nat
  deletedObjects : Nat
deriving DecidableEq, Repr

/-- `SQLiteStore.GetExtendedStats` (src/internal/lifecycle/sqlite_store.go),
lease-derived fields.  `ExpiringIn7Days` is
`SELECT COUNT(*) FROM leases WHERE expire_at BETWEEN now AND now+7d`
(SQL `BETWEEN` is inclusive on both ends, and there is no `deleted_at`
filter in this query); the three status counters re-derive the status of
every lease row through `CalculateLeaseStatus`. -/
def GetExtendedStats (rows : List LeaseRow) (now : Timestamp) : ExtendedStats :=
  { expiringIn7Days :=
      (rows.filter (fun r => now ≤ r.expireAt ∧ r.expireAt ≤ now + 7 * nsPerDay)).length,
    activeObjects :=
      (rows.filter (fun r => CalculateLeaseStatus now (leaseFromRow r) = LeaseStatus.active)).length,
    expiredObjects :=
      (rows.filter (fun r => CalculateLeaseStatus now (leaseFromRow r) = LeaseStatus.expired)).length,
    deletedObjects :=
      (rows.filter (fun r => CalculateLeaseStatus now (leaseFromRow r) = LeaseStatus.deleted)).length }

/-- Modelled from the spec: `SQLiteStore.MarkDeleted` is called by the
expiration scheduler (src/internal/lifecycle/dashboard.go) but its
implementation is not among the source files.  Spec §4.2:
"markDeleted(leaseID): idempotent — setting `deleted_at` on an
already-deleted lease is a no-op, not an error", and §3: "Once `deleted_at`
is set it is never cleared."  So the update sets `deleted_at` to the current
time only on matching rows whose `deleted_at` is still NULL. -/
def MarkDeleted (rows : List LeaseRow) (leaseID : String) (now : Timestamp) :
    List LeaseRow :=
  rows.map (fun r =>
    if r.leaseID = leaseID ∧ r.deletedAt = none then
      { r with deletedAt := some now }
    else r)

/-- `maxUploadSize` (src/internal/api/server.go): `50 << 20`. -/
def maxUploadSize : Nat := 50 * 2 ^ 20

/-- The four tables of the metadata store. -/
structure StoreState where
  users : List UserRow
  datasets : List DataSetRow
  objects : List ObjectRow
  leases : List LeaseRow
deriving DecidableEq, Repr

/-- The JSON body written by a successful `handleUpload`. -/
structure UploadResponse where
  objectID : String
  pieceCID : String
  size : Nat
  expireAt : Timestamp
deriving DecidableEq, Repr

/-- `Server.handleUpload` (src/internal/api/server.go), against the mock
adapter.  `uuid.New()` is nondeterministic, so the two fresh identifiers are
parameters.  The `MaxBytesReader` failure is the 413 branch; the mock
adapter's `EnsureDataSet` always returns `"mock-ds-1"` and its `Upload`
never fails.  `expire := now.Add(30 * 24 * time.Hour)` and the lease is
created with `CreatedAt = now`, `ExpireAt = expire`; the response carries
object identifier, piece identifier, size and `expire_at`. -/
def handleUpload (s : StoreState) (adapter : AdapterState) (wallet : String)
    (data : List Nat) (now : Timestamp) (objectID leaseID : String) :
    Except (Nat × String) (StoreState × AdapterState × UploadResponse) :=
  if wallet = "" then Except.error (400, "missing_wallet")
  else if maxUploadSize < data.length then Except.error (413, "payload_too_large")
  else
    let dataSetID := "mock-ds-1"
    let up := mockUpload adapter data
    let users2 := InsertUser s.users wallet now
    let datasets2 := InsertDataSet s.datasets dataSetID wallet now
    let objects2 := InsertObject s.objects objectID wallet dataSetID
      (Int.ofNat data.length) now
    let expire := now + 30 * nsPerDay
    let lease : ObjectLease :=
      { leaseID := leaseID, objectID := objectID, bucket := "", key := "",
        wallet := wallet, createdAt := now, expireAt := expire,
        tombstonedAt := none, deletedAt := none,
        storageRef := { dataSetID := dataSetID, pieceCID := up.2.1 } }
    let leases2 := InsertLease s.leases lease
    Except.ok
      ({ users := users2, datasets := datasets2, objects := objects2,
         leases := leases2 },
       up.1,
       { objectID := objectID, pieceCID := up.2.1, size := up.2.2,
         expireAt := expire })

/-- Demo rows for witnesses: the newest lease for `"obj1"` is `demoLeaseB`
(created at 200) and it is deleted, so the lookup ignores the derived
status; `demoLeaseA` is an older lease for the same object; `demoLeaseC`
belongs to a different object. -/
def demoLeaseA : LeaseRow :=
  { leaseID := "a", objectID := "obj1", bucket := "", objectKey := "",
    wallet := "w1", createdAt := 100, expireAt := 0, deletedAt := none,
    datasetID := "ds1", pieceCID := "p1" }

def demoLeaseB : LeaseRow :=
  { leaseID := "b", objectID := "obj1", bucket := "", objectKey := "",
    wallet := "w1", createdAt := 200, expireAt := 150, deletedAt := some 160,
    datasetID := "ds1", pieceCID := "p2" }

def demoLeaseC : LeaseRow :=
  { leaseID := "c", objectID := "obj2", bucket := "", objectKey := "",
    wallet := "w2", createdAt := 300, expireAt := 0, deletedAt := none,
    datasetID := "ds1", pieceCID := "p3" }

def demoLeases : List LeaseRow := [demoLeaseA, demoLeaseB, demoLeaseC]

/-- Demo read-path state: `demoReadLease` is the only lease for `"obj1"`,
it is `Active` at time 100, and the adapter holds its piece. -/
def demoReadLease : LeaseRow :=
  { leaseID := "l1", objectID := "obj1", bucket := "", objectKey := "",
    wallet := "w1", createdAt := 50, expireAt := 500, deletedAt := none,
    datasetID := "ds1", pieceCID := "p1" }

def demoAdapter : AdapterState := [("p1", [1, 2, 3])]

/-- Demo lease expiring 8 days after time 0. -/
def demoLease8d : LeaseRow :=
  { leaseID := "e8", objectID := "obj8", bucket := "", objectKey := "",
    wallet := "w1", createdAt := 0, expireAt := 8 * nsPerDay, deletedAt := none,
    datasetID := "ds1", pieceCID := "p8" }

/-- Demo lease expiring 3 days after time 0. -/
def demoLease3d : LeaseRow :=
  { leaseID := "e3", objectID := "obj3", bucket := "", objectKey := "",
    wallet := "w1", createdAt := 0, expireAt := 3 * nsPerDay, deletedAt := none,
    datasetID := "ds1", pieceCID := "p3" }

/-- Demo objects table with one existing object identifier. -/
def demoObjects : List ObjectRow :=
  [{ objectID := "obj1", wallet := "w1", datasetID := "ds1", sizeBytes := 10,
     createdAt := 100 }]

/-- Demo lease record whose `DeletedAt` and `TombstonedAt` are already set
when it is handed to `InsertLease`. -/
def demoDeletedInput : ObjectLease :=
  { leaseID := "lz", objectID := "oz", bucket := "b", key := "k",
    wallet := "w1", createdAt := 10, expireAt := 20,
    tombstonedAt := some 4, deletedAt := some 5,
    storageRef := { dataSetID := "ds1", pieceCID := "pz" } }

end Szem

namespace Szem

/-- C1: whenever `deleted_at` is set, `CalculateLeaseStatus` is `Deleted`,
for every `expire_at` and every current time — in particular a lease with
`deleted_at` set and `expire_at` in the past is `Deleted`, never `Expired`. -/
theorem calculateLeaseStatus_deleted_dominates (now : Timestamp) (l : ObjectLease)
    (h : l.deletedAt ≠ none) : CalculateLeaseStatus now l = LeaseStatus.deleted := by
  unfold CalculateLeaseStatus
  simp [Option.isSome_iff_ne_none, h]

/-- Witness for C1 at a concrete lease whose `expire_at` (50) is in the past
of `now` (100) and whose `deleted_at` is set. -/
theorem calculateLeaseStatus_deleted_dominates_witness :
    ({ leaseID := "l1", objectID := "o1", bucket := "", key := "", wallet := "w1",
       createdAt := 10, expireAt := 50, tombstonedAt := none, deletedAt := some 60,
       storageRef := { dataSetID := "ds1", pieceCID := "p1" } } : ObjectLease).deletedAt ≠ none ∧
    CalculateLeaseStatus 100
      { leaseID := "l1", objectID := "o1", bucket := "", key := "", wallet := "w1",
        createdAt := 10, expireAt := 50, tombstonedAt := none, deletedAt := some 60,
        storageRef := { dataSetID := "ds1", pieceCID := "p1" } } = LeaseStatus.deleted :=
  ⟨by decide, calculateLeaseStatus_deleted_dominates 100 _ (by decide)⟩

/-- C2: with `deleted_at` unset and a non-zero `expire_at`, the status is
`Expired` exactly when the current time is ≥ `expire_at`; equality counts as
expired (inclusive boundary). -/
theorem calculateLeaseStatus_expired_iff (now : Timestamp) (l : ObjectLease)
    (h1 : l.deletedAt = none) (h2 : l.expireAt ≠ 0) :
    CalculateLeaseStatus now l = LeaseStatus.expired ↔ l.expireAt ≤ now := by
  unfold CalculateLeaseStatus
  simp [h1, h2]

/-- Witness for C2 at the boundary: `now` equal to `expire_at` yields
`Expired`, not `Active`. -/
theorem calculateLeaseStatus_expired_iff_witness :
    ({ leaseID := "l1", objectID := "o1", bucket := "", key := "", wallet := "w1",
       createdAt := 10, expireAt := 100, tombstonedAt := none, deletedAt := none,
       storageRef := { dataSetID := "ds1", pieceCID := "p1" } } : ObjectLease).deletedAt = none ∧
    ({ leaseID := "l1", objectID := "o1", bucket := "", key := "", wallet := "w1",
       createdAt := 10, expireAt := 100, tombstonedAt := none, deletedAt := none,
       storageRef := { dataSetID := "ds1", pieceCID := "p1" } } : ObjectLease).expireAt ≠ 0 ∧
    CalculateLeaseStatus 100
      { leaseID := "l1", objectID := "o1", bucket := "", key := "", wallet := "w1",
        createdAt := 10, expireAt := 100, tombstonedAt := none, deletedAt := none,
        storageRef := { dataSetID := "ds1", pieceCID := "p1" } } = LeaseStatus.expired :=
  ⟨by decide, by decide,
    (calculateLeaseStatus_expired_iff 100 _ (by decide) (by decide)).mpr (by decide)⟩

/-- C8: with `deleted_at` unset and a zero-value `expire_at`, the status is
`Active` at every evaluation time: the expiry check never fires. -/
theorem calculateLeaseStatus_zero_expiry_active (now : Timestamp) (l : ObjectLease)
    (h1 : l.deletedAt = none) (h2 : l.expireAt = 0) :
    CalculateLeaseStatus now l = LeaseStatus.active := by
  unfold CalculateLeaseStatus
  simp [h1, h2]

/-- `maxByCreated` returns `none` exactly on the empty list. -/
theorem maxByCreated_eq_none_iff (xs : List LeaseRow) :
    maxByCreated xs = none ↔ xs = [] := by
  cases xs with
  | nil => simp [maxByCreated]
  | cons r rs =>
    unfold maxByCreated
    cases maxByCreated rs with
    | none => simp
    | some b => by_cases h : b.createdAt ≤ r.createdAt <;> simp [h]

/-- `maxByCreated` returns an element of the list. -/
theorem maxByCreated_mem {xs : List LeaseRow} {r : LeaseRow}
    (h : maxByCreated xs = some r) : r ∈ xs := by
  induction xs with
  | nil => simp [maxByCreated] at h
  | cons x rs ih =>
    unfold maxByCreated at h
    cases hm : maxByCreated rs with
    | none =>
      rw [hm] at h
      simp at h
      simp [h]
    | some b =>
      rw [hm] at h
      by_cases hc : b.createdAt ≤ x.createdAt
      · simp [hc] at h
        simp [h]
      · simp [hc] at h
        exact List.mem_cons_of_mem _ (ih (h ▸ hm))

/-- `maxByCreated` returns a row of maximal `created_at`. -/
theorem maxByCreated_le {xs : List LeaseRow} {r : LeaseRow}
    (h : maxByCreated xs = some r) : ∀ x ∈ xs, x.createdAt ≤ r.createdAt := by
  induction xs generalizing r with
  | nil => simp [maxByCreated] at h
  | cons x rs ih =>
    unfold maxByCreated at h
    cases hm : maxByCreated rs with
    | none =>
      rw [hm] at h
      have hnil := (maxByCreated_eq_none_iff rs).mp hm
      simp at h
      subst hnil
      simp [h]
    | some b =>
      rw [hm] at h
      by_cases hc : b.createdAt ≤ x.createdAt
      · simp [hc] at h
        intro y hy
        rcases List.mem_cons.mp hy with hy | hy
        · subst hy
          simp [h]
        · exact le_trans (ih hm y hy) (h ▸ hc)
      · simp [hc] at h
        intro y hy
        rcases List.mem_cons.mp hy with hy | hy
        · subst hy
          exact le_of_lt (h ▸ Nat.lt_of_not_le hc)
        · exact h ▸ ih hm y hy

/-- C9: the store's lease lookup returns the most recently created lease for
the object regardless of its derived status, and `NotFound` (no row) exactly
when the object has no lease at all. -/
theorem getActiveLease_returns_latest (rows : List LeaseRow) (objectID : String) :
    (GetActiveLeaseByObjectID rows objectID = none ↔ ∀ r ∈ rows, r.objectID ≠ objectID)
    ∧ ∀ r, GetActiveLeaseByObjectID rows objectID = some r →
        r ∈ rows ∧ r.objectID = objectID ∧
        ∀ x ∈ rows, x.objectID = objectID → x.createdAt ≤ r.createdAt := by
  constructor
  · unfold GetActiveLeaseByObjectID
    rw [maxByCreated_eq_none_iff]
    simp [List.filter_eq_nil_iff]
  · intro r h
    have hmem := maxByCreated_mem h
    have hle := maxByCreated_le h
    have h1 := List.mem_filter.mp hmem
    refine ⟨h1.1, by simpa using h1.2, ?_⟩
    intro x hx hxid
    exact hle x (List.mem_filter.mpr ⟨hx, by simpa using hxid⟩)

/-- Witness for C9: on the demo table the lookup for `"obj1"` yields the
newest lease `demoLeaseB` even though its derived status is `Deleted`. -/
theorem getActiveLease_returns_latest_witness :
    GetActiveLeaseByObjectID demoLeases "obj1" = some demoLeaseB ∧
    demoLeaseB ∈ demoLeases ∧ demoLeaseB.objectID = "obj1" ∧
    demoLeaseA.createdAt ≤ demoLeaseB.createdAt ∧
    CalculateLeaseStatus 400 (leaseFromRow demoLeaseB) = LeaseStatus.deleted := by
  have h := (getActiveLease_returns_latest demoLeases "obj1").2 demoLeaseB (by decide)
  exact ⟨by decide, h.1, h.2.1, h.2.2 demoLeaseA (by decide) (by decide), by decide⟩

/-- C3: the read path returns bytes exactly when the object's most recent
lease derives `Active`; when no lease exists or the lease is `Expired` or
`Deleted`, the outcome is the `404 not_found` error and is equal to the
outcome for an identifier that never existed (empty lease table). -/
theorem readPath_bytes_iff_active (leases : List LeaseRow) (adapter : AdapterState)
    (now : Timestamp) (objectID : String)
    (hcov : ∀ r ∈ leases, (mockDownload adapter r.pieceCID).isSome = true) :
    ((∃ data, handleGetObject leases adapter now objectID = HttpResult.bytes data) ↔
      ∃ row, GetActiveLeaseByObjectID leases objectID = some row ∧
        CalculateLeaseStatus now (leaseFromRow row) = LeaseStatus.active)
    ∧ ((∀ row, GetActiveLeaseByObjectID leases objectID = some row →
          CalculateLeaseStatus now (leaseFromRow row) ≠ LeaseStatus.active) →
        handleGetObject leases adapter now objectID =
          HttpResult.httpError 404 "not_found" "object not found" ∧
        handleGetObject leases adapter now objectID =
          handleGetObject [] adapter now objectID) := by
  constructor
  · constructor
    · rintro ⟨data, hdata⟩
      unfold handleGetObject at hdata
      cases hg : GetActiveLeaseByObjectID leases objectID with
      | none => rw [hg] at hdata; simp at hdata
      | some row =>
        rw [hg] at hdata
        by_cases hst : CalculateLeaseStatus now (leaseFromRow row) = LeaseStatus.active
        · exact ⟨row, rfl, hst⟩
        · simp [hst] at hdata
    · rintro ⟨row, hg, hst⟩
      have hrow : row ∈ leases := by
        have hm := maxByCreated_mem hg
        exact (List.mem_filter.mp hm).1
      obtain ⟨data, hdl⟩ := Option.isSome_iff_exists.mp (hcov row hrow)
      refine ⟨data, ?_⟩
      unfold handleGetObject
      rw [hg]
      simp [hst, hdl]
  · intro hnone
    have hres : handleGetObject leases adapter now objectID =
        HttpResult.httpError 404 "not_found" "object not found" := by
      unfold handleGetObject
      cases hg : GetActiveLeaseByObjectID leases objectID with
      | none => rfl
      | some row => simp [hnone row hg]
    exact ⟨hres, by rw [hres]; rfl⟩

/-- Witness for C3: with an active lease and its piece stored, the read path
returns bytes; with an expired lease (time 600) it returns the same 404 as
for a never-existing object. -/
theorem readPath_bytes_iff_active_witness :
    (∀ r ∈ [demoReadLease], (mockDownload demoAdapter r.pieceCID).isSome = true) ∧
    (∃ data, handleGetObject [demoReadLease] demoAdapter 100 "obj1" = HttpResult.bytes data) ∧
    handleGetObject [demoReadLease] demoAdapter 600 "obj1" =
      HttpResult.httpError 404 "not_found" "object not found" ∧
    handleGetObject [demoReadLease] demoAdapter 600 "obj1" =
      handleGetObject [] demoAdapter 600 "obj1" := by
  refine ⟨by decide, ?_, ?_⟩
  · exact (readPath_bytes_iff_active [demoReadLease] demoAdapter 100 "obj1" (by decide)).1.mpr
      ⟨demoReadLease, by decide, by decide⟩
  · exact (readPath_bytes_iff_active [demoReadLease] demoAdapter 600 "obj1" (by decide)).2
      (by intro row hrow; rw [show GetActiveLeaseByObjectID [demoReadLease] "obj1" = some demoReadLease from by decide] at hrow; cases hrow; decide)

/-- Witness for C8 at a large evaluation time. -/
theorem calculateLeaseStatus_zero_expiry_active_witness :
    ({ leaseID := "l1", objectID := "o1", bucket := "", key := "", wallet := "w1",
       createdAt := 10, expireAt := 0, tombstonedAt := none, deletedAt := none,
       storageRef := { dataSetID := "ds1", pieceCID := "p1" } } : ObjectLease).deletedAt = none ∧
    CalculateLeaseStatus 1000000000000
      { leaseID := "l1", objectID := "o1", bucket := "", key := "", wallet := "w1",
        createdAt := 10, expireAt := 0, tombstonedAt := none, deletedAt := none,
        storageRef := { dataSetID := "ds1", pieceCID := "p1" } } = LeaseStatus.active :=
  ⟨by decide, calculateLeaseStatus_zero_expiry_active 1000000000000 _ (by decide) (by decide)⟩

/-- C7: the dashboard's `ExpiringIn7Days` counts exactly the leases whose
`expire_at` lies in the inclusive window from the current time to 7 days
later; appending a lease expiring 8 days ahead leaves the count unchanged,
appending one expiring 3 days ahead increases it by one. -/
theorem extendedStats_expiring_window (rows : List LeaseRow) (now : Timestamp)
    (r : LeaseRow) :
    ((GetExtendedStats rows now).expiringIn7Days =
      (rows.filter (fun x => now ≤ x.expireAt ∧ x.expireAt ≤ now + 7 * nsPerDay)).length)
    ∧ (r.expireAt = now + 8 * nsPerDay →
        (GetExtendedStats (rows ++ [r]) now).expiringIn7Days =
          (GetExtendedStats rows now).expiringIn7Days)
    ∧ (r.expireAt = now + 3 * nsPerDay →
        (GetExtendedStats (rows ++ [r]) now).expiringIn7Days =
          (GetExtendedStats rows now).expiringIn7Days + 1) := by
  refine ⟨rfl, ?_, ?_⟩
  · intro h8
    have hout : ¬ (now ≤ r.expireAt ∧ r.expireAt ≤ now + 7 * nsPerDay) := by
      rw [h8]
      rintro ⟨-, hb⟩
      have hcon := Nat.le_of_add_le_add_left hb
      norm_num [nsPerDay] at hcon
    simp [GetExtendedStats, List.filter_append, hout]
  · intro h3
    have hin : now ≤ r.expireAt ∧ r.expireAt ≤ now + 7 * nsPerDay := by
      rw [h3]
      exact ⟨Nat.le_add_right now (3 * nsPerDay),
        Nat.add_le_add_left (by norm_num [nsPerDay]) now⟩
    simp [GetExtendedStats, List.filter_append, hin]

/-- Witness for C7 at time 0: the 8-day lease is not counted, the 3-day
lease is counted. -/
theorem extendedStats_expiring_window_witness :
    demoLease8d.expireAt = 0 + 8 * nsPerDay ∧
    (GetExtendedStats ([] ++ [demoLease8d]) 0).expiringIn7Days =
      (GetExtendedStats [] 0).expiringIn7Days ∧
    demoLease3d.expireAt = 0 + 3 * nsPerDay ∧
    (GetExtendedStats ([] ++ [demoLease3d]) 0).expiringIn7Days =
      (GetExtendedStats [] 0).expiringIn7Days + 1 :=
  ⟨by decide, (extendedStats_expiring_window [] 0 demoLease8d).2.1 (by decide),
   by decide, (extendedStats_expiring_window [] 0 demoLease3d).2.2 (by decide)⟩

/-- C5: `MarkDeleted` is idempotent — a second call on the same lease
identifier leaves every row, and in particular the stored deletion
timestamp, exactly as the first call left it, whatever the second call's
current time is; it is a no-op, not an error and not an overwrite. -/
theorem markDeleted_idempotent (rows : List LeaseRow) (leaseID : String)
    (t1 t2 : Timestamp) :
    MarkDeleted (MarkDeleted rows leaseID t1) leaseID t2 =
      MarkDeleted rows leaseID t1 := by
  unfold MarkDeleted
  rw [List.map_map]
  apply List.map_congr_left
  intro r _
  by_cases h : r.leaseID = leaseID ∧ r.deletedAt = none
  · simp [Function.comp, h]
  · simp [Function.comp, h]

/-- C6 counterexample: inserting a duplicate object identifier is rejected
at the SQL layer (primary-key constraint), but `InsertObject` discards that
error (`_, _ = s.db.Exec(...)`) and its Go signature returns nothing, so the
caller-visible outcome on a duplicate is just the unchanged table and no
`ConstraintError` reaches the caller — the duplicate insert is silently
ignored, contradicting the claim that it is surfaced as an error. -/
theorem insertObject_duplicate_counterexample :
    InsertObject demoObjects "obj1" "w2" "ds2" 5 200 = demoObjects ∧
    (dbInsertObject demoObjects
      { objectID := "obj1", wallet := "w2", datasetID := "ds2",
        sizeBytes := 5, createdAt := 200 }).2 =
      Except.error SqlError.constraintViolation := by
  exact ⟨rfl, rfl⟩

/-- C6 (amended): on a duplicate object identifier the database-level insert
fails with a constraint violation and the `objects` table is left unchanged
(no silent overwrite), but `InsertObject` discards the error and surfaces
nothing to its caller. -/
theorem insertObject_duplicate_silently_ignored (objs : List ObjectRow)
    (objectID wallet datasetID : String) (size : Int) (now : Timestamp)
    (h : ∃ o ∈ objs, o.objectID = objectID) :
    (dbInsertObject objs
      { objectID := objectID, wallet := wallet, datasetID := datasetID,
        sizeBytes := size, createdAt := now }).2 =
      Except.error SqlError.constraintViolation ∧
    InsertObject objs objectID wallet datasetID size now = objs := by
  obtain ⟨o, ho, hid⟩ := h
  have hany : objs.any (fun x => x.objectID = objectID) = true :=
    List.any_eq_true.mpr ⟨o, ho, by simpa using hid⟩
  constructor
  · simp [dbInsertObject, hany]
  · simp [InsertObject, dbInsertObject, hany]

/-- Witness for the amended C6 on the demo table. -/
theorem insertObject_duplicate_silently_ignored_witness :
    (∃ o ∈ demoObjects, o.objectID = "obj1") ∧
    InsertObject demoObjects "obj1" "w3" "ds3" 7 300 = demoObjects :=
  ⟨by decide,
   (insertObject_duplicate_silently_ignored demoObjects "obj1" "w3" "ds3" 7 300
     (by decide)).2⟩

/-- C10: a lease row written by `InsertLease` always has `deleted_at = NULL`,
whatever `DeletedAt`/`TombstonedAt` the caller put in the `ObjectLease`
record, so a newly persisted lease never derives `Deleted`. -/
theorem insertLease_deletedAt_null (rows : List LeaseRow) (l : ObjectLease)
    (hfresh : ∀ r ∈ rows, r.leaseID ≠ l.leaseID) :
    InsertLease rows l = rows ++ [insertedLeaseRow l] ∧
    (insertedLeaseRow l).deletedAt = none ∧
    ∀ now, CalculateLeaseStatus now (leaseFromRow (insertedLeaseRow l)) ≠
      LeaseStatus.deleted := by
  have hany : rows.any (fun r => r.leaseID = l.leaseID) = false := by
    rw [List.any_eq_false]
    intro r hr
    simpa using hfresh r hr
  refine ⟨by simp [InsertLease, dbInsertLease, hany], rfl, ?_⟩
  intro now
  unfold CalculateLeaseStatus leaseFromRow insertedLeaseRow
  simp only [Option.isSome_none, Bool.false_eq_true, if_false]
  split <;> simp

/-- Witness for C10 with an input lease whose `DeletedAt` and `TombstonedAt`
are both set: the persisted row still has `deleted_at = NULL`. -/
theorem insertLease_deletedAt_null_witness :
    (∀ r ∈ ([] : List LeaseRow), r.leaseID ≠ demoDeletedInput.leaseID) ∧
    InsertLease [] demoDeletedInput = [insertedLeaseRow demoDeletedInput] ∧
    (insertedLeaseRow demoDeletedInput).deletedAt = none ∧
    CalculateLeaseStatus 100 (leaseFromRow (insertedLeaseRow demoDeletedInput)) ≠
      LeaseStatus.deleted := by
  have h := insertLease_deletedAt_null [] demoDeletedInput (by simp)
  exact ⟨by simp, h.1, h.2.1, h.2.2 100⟩

/-- C4: a successful upload creates a lease whose `expire_at` is its
creation time plus exactly 30 days, and the JSON response carries the
object identifier, the piece identifier, the byte size, and that expiry. -/
theorem handleUpload_response_and_lease (s : StoreState) (adapter : AdapterState)
    (wallet : String) (data : List Nat) (now : Timestamp) (objectID leaseID : String)
    (hw : wallet ≠ "") (hsize : data.length ≤ maxUploadSize)
    (hfresh : ∀ r ∈ s.leases, r.leaseID ≠ leaseID) :
    ∃ s2 a2,
      handleUpload s adapter wallet data now objectID leaseID =
        Except.ok (s2, a2,
          { objectID := objectID,
            pieceCID := "mock-piece-" ++ toString (adapter.length + 1),
            size := data.length,
            expireAt := now + 30 * nsPerDay }) ∧
      ∃ row, s2.leases = s.leases ++ [row] ∧
        row.objectID = objectID ∧ row.createdAt = now ∧
        row.expireAt = row.createdAt + 30 * nsPerDay ∧ row.deletedAt = none := by
  have hany : s.leases.any (fun r => r.leaseID = leaseID) = false := by
    rw [List.any_eq_false]
    intro r hr
    simpa using hfresh r hr
  unfold handleUpload
  rw [if_neg hw, if_neg (by omega : ¬ maxUploadSize < data.length)]
  refine ⟨_, _, rfl, ?_⟩
  refine ⟨insertedLeaseRow
    { leaseID := leaseID, objectID := objectID, bucket := "", key := "",
      wallet := wallet, createdAt := now, expireAt := now + 30 * nsPerDay,
      tombstonedAt := none, deletedAt := none,
      storageRef := { dataSetID := "mock-ds-1",
                      pieceCID := (mockUpload adapter data).2.1 } },
    ?_, rfl, rfl, rfl, rfl⟩
  simp [InsertLease, dbInsertLease, hany]

/-- Witness for C4: uploading 1024 bytes for wallet `"w1"` into an empty
store yields piece `"mock-piece-1"`, size 1024, and an expiry exactly
30 days after creation. -/
theorem handleUpload_response_and_lease_witness :
    ("w1" : String) ≠ "" ∧
    (List.replicate 1024 (0 : Nat)).length ≤ maxUploadSize ∧
    ∃ s2 a2,
      handleUpload ⟨[], [], [], []⟩ [] "w1" (List.replicate 1024 0) 0
          "obj-1" "lease-1" =
        Except.ok (s2, a2,
          { objectID := "obj-1",
            pieceCID := "mock-piece-" ++ toString (([] : AdapterState).length + 1),
            size := (List.replicate 1024 (0 : Nat)).length,
            expireAt := 0 + 30 * nsPerDay }) ∧
      ∃ row, s2.leases = ([] : List LeaseRow) ++ [row] ∧
        row.objectID = "obj-1" ∧ row.createdAt = 0 ∧
        row.expireAt = row.createdAt + 30 * nsPerDay ∧ row.deletedAt = none :=
  ⟨by decide, by rw [List.length_replicate]; norm_num [maxUploadSize],
   handleUpload_response_and_lease ⟨[], [], [], []⟩ [] "w1" (List.replicate 1024 0)
     0 "obj-1" "lease-1" (by decide)
     (by rw [List.length_replicate]; norm_num [maxUploadSize]) (by simp)⟩

end Szem
